import Mathlib

/-!
Shallow embedding of the pseudocode complexity analyzer
(src/src/models.py, src/src/analyzer.py, src/src/knowledge_base.py,
src/src/ai_engine.py, src/src/parser.py), with theorems settling the
behavioural claims about its cost algebra, signature function,
dependency detection, inference engine, tokenizer and parser.

Conventions:
- Python exceptions are modelled by `Option`/`Except`: a raised
  exception is `none` / `.error`, a normal return is `some` / `.ok`.
- Python's `dict` is modelled as an association list with
  first-match lookup and replace-or-append insertion.
- Machine-level details that the analyzed properties do not depend on
  (the SHA-256 hex digest of Python's `hashlib`, an external library)
  are modelled as an injective encoding; every theorem below uses only
  determinism of the digest (equal inputs give equal digests), which
  holds of the real function as well.
-/

/-- Does `pat` occur as a prefix of `cs`? (structural helper, so that
concrete evaluations reduce in the kernel). -/
def prefAt : List Char → List Char → Bool
  | [], _ => true
  | _ :: _, [] => false
  | p :: ps, c :: cs => c = p && prefAt ps cs

/-- Drop a prefix occurrence of `pat` from `cs`, `none` if `pat` is not
a prefix. -/
def dropPre : List Char → List Char → Option (List Char)
  | [], cs => some cs
  | _ :: _, [] => none
  | p :: ps, c :: cs => if c = p then dropPre ps cs else none

/-- The suffix of `cs` after the first occurrence of (nonempty) `pat`,
`none` if `pat` does not occur. -/
def afterFirst (pat : List Char) : List Char → Option (List Char)
  | [] => none
  | c :: cs =>
    match dropPre pat (c :: cs) with
    | some rest => some rest
    | none => afterFirst pat cs

/-- The portion of `cs` strictly before the first occurrence of `pat`
(all of `cs` if `pat` does not occur). -/
def beforeFirst (pat : List Char) : List Char → List Char
  | [] => []
  | c :: cs => if prefAt pat (c :: cs) then [] else c :: beforeFirst pat cs

/-- Python `pat in s` substring containment (for nonempty `pat`). -/
def containsSub (s pat : String) : Bool :=
  (afterFirst pat.data s.data).isSome

/-- Python `s.split(sep)[1]`: the piece between the first and second
occurrence of `sep`; raises `IndexError` (`none`) when `sep` does not
occur in `s`. -/
def pySplitSecond (s sep : String) : Option String :=
  (afterFirst sep.data s.data).map (fun rest => ⟨beforeFirst sep.data rest⟩)

/-- Characters stripped by Python `int()` around the digits. -/
def isPySpace (c : Char) : Bool :=
  c = ' ' ∨ c = '\t' ∨ c = '\n' ∨ c = '\r'

/-- Value of a digit run (most significant first). -/
def digitsVal (acc : Nat) : List Char → Nat
  | [] => acc
  | c :: cs => digitsVal (acc * 10 + (c.toNat - 48)) cs

/-- Model of Python `int(s)`: optional sign then nonempty digit run,
surrounding whitespace allowed; any other shape raises `ValueError`,
modelled as `none`. -/
def pyInt (s : String) : Option Int :=
  let t := ((s.data.dropWhile isPySpace).reverse.dropWhile isPySpace).reverse
  let (sign, digits) :=
    match t with
    | '-' :: rest => ((-1 : Int), rest)
    | '+' :: rest => ((1 : Int), rest)
    | rest => ((1 : Int), rest)
  if digits.length > 0 ∧ digits.all Char.isDigit then
    some (sign * (digitsVal 0 digits : Nat))
  else
    none

/-- `Complexity._add_term` (src/src/analyzer.py lines 38-52).  The
`int(...)` calls can raise `ValueError`, so the result is an `Option`. -/
def addTerm (t1 t2 : String) : Option String :=
  if t1 = "1" then some t2
  else if t2 = "1" then some t1
  else if t1 = t2 then some t1
  else if containsSub t1 "n^" ∧ containsSub t2 "n^" then do
    let p1 ← pyInt (← pySplitSecond t1 "^")
    let p2 ← pyInt (← pySplitSecond t2 "^")
    some ("n^" ++ toString (max p1 p2))
  else if containsSub t1 "n" ∧ t2 = "1" then some t1
  else if containsSub t2 "n" ∧ t1 = "1" then some t2
  else some ("max(" ++ t1 ++ ", " ++ t2 ++ ")")

/-- `Complexity._mul_term` (src/src/analyzer.py lines 54-65). -/
def mulTerm (t1 t2 : String) : Option String :=
  if t1 = "1" then some t2
  else if t2 = "1" then some t1
  else if t1 = "n" ∧ t2 = "n" then some "n^2"
  else if containsSub t1 "n^" ∧ t2 = "n" then do
    let p ← pyInt (← pySplitSecond t1 "^")
    some ("n^" ++ toString (p + 1))
  else if t1 = "n" ∧ containsSub t2 "n^" then do
    let p ← pyInt (← pySplitSecond t2 "^")
    some ("n^" ++ toString (p + 1))
  else some (t1 ++ " * " ++ t2)

/-- The `Complexity` triple (src/src/analyzer.py lines 6-20):
worst case `o`, best case `omega`, average case `theta`. -/
structure Complexity where
  o : String
  omega : String
  theta : String
deriving Repr, DecidableEq

/-- The identity triple `Complexity("1", "1", "1")`. -/
def Complexity.one : Complexity := ⟨"1", "1", "1"⟩

/-- The symbolic triple `Complexity("n", "n", "n")`. -/
def Complexity.nTriple : Complexity := ⟨"n", "n", "n"⟩

/-- `Complexity.__add__`: componentwise `_add_term`, first raised
`ValueError` propagates. -/
def Complexity.addC (a b : Complexity) : Option Complexity := do
  let o ← addTerm a.o b.o
  let om ← addTerm a.omega b.omega
  let th ← addTerm a.theta b.theta
  some ⟨o, om, th⟩

/-- `Complexity.__mul__`: componentwise `_mul_term`. -/
def Complexity.mulC (a b : Complexity) : Option Complexity := do
  let o ← mulTerm a.o b.o
  let om ← mulTerm a.omega b.omega
  let th ← mulTerm a.theta b.theta
  some ⟨o, om, th⟩

/-- The symbolic term grammar of the specification's data model:
`term ::= "1" | "n" | "n^" INT | "n log n" | "max(" term "," term ")"
| term " * " term`. -/
inductive Term where
  | one : Term
  | n : Term
  | pow (k : Nat) : Term
  | nlogn : Term
  | maxT (a b : Term) : Term
  | mulT (a b : Term) : Term
deriving Repr, DecidableEq

/-- Rendering of a `Term` to the string form the analyzer works on. -/
def Term.render : Term → String
  | .one => "1"
  | .n => "n"
  | .pow k => "n^" ++ toString k
  | .nlogn => "n log n"
  | .maxT a b => "max(" ++ a.render ++ ", " ++ b.render ++ ")"
  | .mulT a b => a.render ++ " * " ++ b.render

/-!
## AST model (src/src/models.py)

The Python classes form a closed hierarchy under `ASTNode`; the
analyzer dispatches on the concrete class, so the embedding is a
tagged union.  `List Node` and `Option Node` fields are expressed
through the companion types `NodeList` and `OptNode` of the same
mutual family so that all recursion over the tree is structural and
kernel-reducible.  Field names and order follow the dataclass
declarations.
-/

mutual

inductive Node where
  | program (name : String) (classes : NodeList) (procedures : NodeList)
      (main_block : Node) : Node
  | classDef (name : String) (attributes : List String) : Node
  | procedureDef (name : String) (params : NodeList) (body : Node) : Node
  | parameter (name : String) (type_info : String) : Node
  | block (statements : NodeList) : Node
  | assignment (target : String) (value : Node) : Node
  | ifStatement (condition : Node) (then_block : Node)
      (else_block : OptNode) : Node
  | forLoop («variable» : String) (start_value : Node) (end_value : Node)
      (body : Node) : Node
  | whileLoop (condition : Node) (body : Node) : Node
  | repeatLoop (condition : Node) (body : Node) : Node
  | call (procedure_name : String) (arguments : NodeList) : Node
  | binaryOp (left : Node) (operator : String) (right : Node) : Node
  | unaryOp (operator : String) (operand : Node) : Node
  | literal (value : String) (type_name : String) : Node
  | «variable» (name : String) : Node
  | arrayAccess (array_name : String) (index : Node) : Node
  | fieldAccess (object_name : String) (field_name : String) : Node

inductive NodeList where
  | nil : NodeList
  | cons (hd : Node) (tl : NodeList) : NodeList

inductive OptNode where
  | none : OptNode
  | some (node : Node) : OptNode

end

/-!
## Serialization and signature
(`ASTNode.to_dict`, src/src/models.py lines 4-17, composed with
`json.dumps(node_dict, sort_keys=True)` inside
`KnowledgeBase.compute_signature`, src/src/knowledge_base.py lines
33-43.)

`to_dict` walks `self.__dict__` (skipping `None` values, recursing
into nodes and lists) and records only the field names and values —
the class of the node is NOT part of the dictionary.  The embedding
fuses `to_dict` with the `json.dumps(..., sort_keys=True)` rendering:
each variant is rendered as a JSON object whose keys appear in sorted
order with Python's default `", "` / `": "` separators.
-/

/-- Lowercase hex digit. -/
def hexDigit (n : Nat) : Char :=
  if n < 10 then Char.ofNat (48 + n) else Char.ofNat (97 + (n - 10))

/-- Four lowercase hex digits of a 16-bit value, as in Python's
`\uXXXX` escapes. -/
def u16hex (n : Nat) : List Char :=
  [hexDigit (n / 4096 % 16), hexDigit (n / 256 % 16),
   hexDigit (n / 16 % 16), hexDigit (n % 16)]

/-- `json.dumps` escaping of one character (default `ensure_ascii`):
printable ASCII passes through, quote/backslash and the short control
escapes are backslashed, everything else becomes `\uXXXX` (with a
surrogate pair above U+FFFF). -/
def jescChar (c : Char) : List Char :=
  if c = '"' then ['\\', '"']
  else if c = '\\' then ['\\', '\\']
  else if c = '\n' then ['\\', 'n']
  else if c = '\t' then ['\\', 't']
  else if c = '\r' then ['\\', 'r']
  else if 0x20 ≤ c.toNat ∧ c.toNat < 0x7f then [c]
  else if c.toNat ≤ 0xffff then '\\' :: 'u' :: u16hex c.toNat
  else
    let m := c.toNat - 0x10000
    ('\\' :: 'u' :: u16hex (0xd800 + m / 1024)) ++
      ('\\' :: 'u' :: u16hex (0xdc00 + m % 1024))

/-- A JSON string literal for `s`. -/
def jstr (s : String) : String :=
  ⟨'"' :: (s.data.flatMap jescChar) ++ ['"']⟩

/-- A JSON array from already rendered element texts. -/
def jarr (items : List String) : String :=
  "[" ++ String.intercalate ", " items ++ "]"

/-- A JSON object from already rendered `"key": value` entries (keys
must be supplied in sorted order). -/
def jobj (entries : List String) : String :=
  "\x7b" ++ String.intercalate ", " entries ++ "\x7d"

/-- One `"key": value` entry. -/
def jkv (key val : String) : String :=
  jstr key ++ ": " ++ val

mutual

/-- `json.dumps(node.to_dict(), sort_keys=True)`: the field dictionary
of the node rendered with keys in sorted (codepoint) order.  `None`
optional fields are omitted, exactly as `to_dict` skips them. -/
def serializeNode : Node → String
  | .program name classes procedures main_block =>
    jobj [jkv "classes" (jarr (serializeNodeList classes)),
          jkv "main_block" (serializeNode main_block),
          jkv "name" (jstr name),
          jkv "procedures" (jarr (serializeNodeList procedures))]
  | .classDef name attributes =>
    jobj [jkv "attributes" (jarr (attributes.map jstr)),
          jkv "name" (jstr name)]
  | .procedureDef name params body =>
    jobj [jkv "body" (serializeNode body),
          jkv "name" (jstr name),
          jkv "params" (jarr (serializeNodeList params))]
  | .parameter name type_info =>
    jobj [jkv "name" (jstr name),
          jkv "type_info" (jstr type_info)]
  | .block statements =>
    jobj [jkv "statements" (jarr (serializeNodeList statements))]
  | .assignment target value =>
    jobj [jkv "target" (jstr target),
          jkv "value" (serializeNode value)]
  | .ifStatement condition then_block else_block =>
    jobj ([jkv "condition" (serializeNode condition)] ++
          (match else_block with
           | .none => []
           | .some e => [jkv "else_block" (serializeNode e)]) ++
          [jkv "then_block" (serializeNode then_block)])
  | .forLoop v start_value end_value body =>
    jobj [jkv "body" (serializeNode body),
          jkv "end_value" (serializeNode end_value),
          jkv "start_value" (serializeNode start_value),
          jkv "variable" (jstr v)]
  | .whileLoop condition body =>
    jobj [jkv "body" (serializeNode body),
          jkv "condition" (serializeNode condition)]
  | .repeatLoop condition body =>
    jobj [jkv "body" (serializeNode body),
          jkv "condition" (serializeNode condition)]
  | .call procedure_name arguments =>
    jobj [jkv "arguments" (jarr (serializeNodeList arguments)),
          jkv "procedure_name" (jstr procedure_name)]
  | .binaryOp left operator right =>
    jobj [jkv "left" (serializeNode left),
          jkv "operator" (jstr operator),
          jkv "right" (serializeNode right)]
  | .unaryOp operator operand =>
    jobj [jkv "operand" (serializeNode operand),
          jkv "operator" (jstr operator)]
  | .literal value type_name =>
    jobj [jkv "type_name" (jstr type_name),
          jkv "value" (jstr value)]
  | .«variable» name =>
    jobj [jkv "name" (jstr name)]
  | .arrayAccess array_name index =>
    jobj [jkv "array_name" (jstr array_name),
          jkv "index" (serializeNode index)]
  | .fieldAccess object_name field_name =>
    jobj [jkv "field_name" (jstr field_name),
          jkv "object_name" (jstr object_name)]

/-- Rendered elements of a node list, in order. -/
def serializeNodeList : NodeList → List String
  | .nil => []
  | .cons hd tl => serializeNode hd :: serializeNodeList tl

end

/-- The SHA-256 hex digest of Python's `hashlib` (an external library,
not code of this repository), modelled as an injective encoding of its
input.  Every theorem below uses only that equal inputs yield equal
digests, which holds of the real digest as well. -/
def sha256hex (s : String) : String := s

/-- `KnowledgeBase.compute_signature(node.to_dict())`
(src/src/knowledge_base.py lines 33-43): hash of the sorted-key JSON
serialization of the node's field dictionary. -/
def signatureOf (n : Node) : String :=
  sha256hex (serializeNode n)

/-!
## Knowledge base and analyzer state
(src/src/knowledge_base.py, src/src/analyzer.py)
-/

/-- The stored cost dictionary `{"O": ..., "Omega": ..., "Theta": ...}`
that `Complexity.to_dict` produces and the knowledge base persists. -/
structure CostDict where
  bigO : String
  bigOmega : String
  bigTheta : String
deriving Repr, DecidableEq

/-- `Complexity.to_dict` (src/src/analyzer.py lines 15-16). -/
def Complexity.toDictC (c : Complexity) : CostDict :=
  ⟨c.o, c.omega, c.theta⟩

/-- `Complexity.from_dict` (src/src/analyzer.py lines 18-20); the
stored dictionaries always carry all three keys, so the `.get`
defaults never fire. -/
def Complexity.fromDict (d : CostDict) : Complexity :=
  ⟨d.bigO, d.bigOmega, d.bigTheta⟩

/-- The in-memory `KnowledgeBase.data` mapping signature → cost
dictionary, modelled as an association list with Python-dict lookup
and insertion semantics.  `save()` writes the same mapping through to
disk; persistence is modelled by carrying the map itself. -/
def KBMap := List (String × CostDict)

/-- `KnowledgeBase.get_complexity` (`data.get(signature)`). -/
def kbGet : KBMap → String → Option CostDict
  | [], _ => none
  | (k, v) :: rest, key => if k = key then some v else kbGet rest key

/-- `KnowledgeBase.add_complexity` (`data[signature] = complexity`
followed by the write-through `save()`): replace in place or append. -/
def kbPut : KBMap → String → CostDict → KBMap
  | [], key, v => [(key, v)]
  | (k, w) :: rest, key, v =>
    if k = key then (k, v) :: rest else (k, w) :: kbPut rest key v

/-- The analyzer context: a Python dict threaded through the
recursion; `check_dependency` consults only its keys. -/
def Ctx := List (String × String)

/-- The keys of the context (`context.keys()`). -/
def ctxKeys (ctx : Ctx) : List String :=
  ctx.map Prod.fst

/-- `context.copy()` followed by `new_context['loop_var'] = v`:
replace in place or append. -/
def ctxPut : Ctx → String → String → Ctx
  | [], key, v => [(key, v)]
  | (k, w) :: rest, key, v =>
    if k = key then (k, v) :: rest else (k, w) :: ctxPut rest key v

/-- The inner `contains_var` of `Analyzer.check_dependency`
(src/src/analyzer.py lines 155-160): a `Variable` counts when its
name is among the given keys; a `BinaryOp` is searched on both sides;
every other expression shape returns `False`. -/
def containsVar (vars : List String) : Node → Bool
  | .«variable» name => vars.contains name
  | .binaryOp left _ right => containsVar vars left || containsVar vars right
  | _ => false

/-- `Analyzer.check_dependency` (src/src/analyzer.py lines 145-165):
a ForLoop is dependent iff its start or end expression contains a
variable whose name is a KEY of the context. -/
def check_dependency (start_value end_value : Node) (ctx : Ctx) : Bool :=
  containsVar (ctxKeys ctx) start_value || containsVar (ctxKeys ctx) end_value

/-- `Analyzer.estimate_iterations` (src/src/analyzer.py lines
167-170): both branches return `Complexity("n", "n", "n")`, so the
estimate is `n` regardless of the loop's start and end expressions. -/
def estimate_iterations (start_value end_value : Node) : Complexity :=
  match end_value with
  | .«variable» name => if name = "n" then Complexity.nTriple else Complexity.nTriple
  | _ => Complexity.nTriple

/-!
## The inference engine `Analyzer.analyze` (src/src/analyzer.py lines 71-143)

The oracle parameter stands for `AIEngine().analyze_complexity`,
invoked on the serialized subtree of a dependent ForLoop; the
knowledge base is threaded explicitly (Python mutates `self.kb` in
place, writing each memoized entry before returning).  A raised
exception (`ValueError` inside the term algebra) is `none`.
-/

mutual

/-- `Analyzer.analyze`: memoization check, variant dispatch, memoize. -/
def analyze (oracle : String → CostDict) (node : Node) (ctx : Ctx)
    (kb : KBMap) : Option (Complexity × KBMap) :=
  let sig := signatureOf node
  match kbGet kb sig with
  | some cached => some (Complexity.fromDict cached, kb)
  | none =>
    (match node with
     | .program _ _ _ main_block => analyze oracle main_block ctx kb
     | .block statements =>
       analyzeStmts oracle statements Complexity.one ctx kb
     | .assignment _ value => do
       let (v, kb1) ← analyze oracle value ctx kb
       let r ← Complexity.one.addC v
       some (r, kb1)
     | .ifStatement condition then_block else_block => do
       let (cond_cost, kb1) ← analyze oracle condition ctx kb
       let (then_cost, kb2) ← analyze oracle then_block ctx kb1
       let (else_cost, kb3) ← analyzeElse oracle else_block ctx kb2
       let max_branch ← then_cost.addC else_cost
       let r ← cond_cost.addC max_branch
       some (r, kb3)
     | .forLoop v start_value end_value body =>
       if check_dependency start_value end_value ctx then
         some (Complexity.fromDict (oracle (serializeNode node)), kb)
       else do
         let new_context := ctxPut ctx "loop_var" v
         let iterations := estimate_iterations start_value end_value
         let (body_cost, kb1) ← analyze oracle body new_context kb
         let r ← iterations.mulC body_cost
         some (r, kb1)
     | .whileLoop _ body => do
       let (body_cost, kb1) ← analyze oracle body ctx kb
       let r ← Complexity.nTriple.mulC body_cost
       some (r, kb1)
     | .repeatLoop _ body => do
       let (body_cost, kb1) ← analyze oracle body ctx kb
       let r ← Complexity.nTriple.mulC body_cost
       some (r, kb1)
     | .call _ _ => some (Complexity.one, kb)
     | .binaryOp left _ right => do
       let (l, kb1) ← analyze oracle left ctx kb
       let (r, kb2) ← analyze oracle right ctx kb1
       let s ← l.addC r
       some (s, kb2)
     | .unaryOp _ operand => analyze oracle operand ctx kb
     | .literal _ _ => some (Complexity.one, kb)
     | .«variable» _ => some (Complexity.one, kb)
     | .arrayAccess _ index => analyze oracle index ctx kb
     | .fieldAccess _ _ => some (Complexity.one, kb)
     | .classDef _ _ => some (Complexity.one, kb)
     | .procedureDef _ _ _ => some (Complexity.one, kb)
     | .parameter _ _ => some (Complexity.one, kb)).bind
      (fun (r, kb1) => some (r, kbPut kb1 sig r.toDictC))

/-- The Block branch's fold
`total = total + self.analyze(stmt, context)` over the statements. -/
def analyzeStmts (oracle : String → CostDict) (stmts : NodeList)
    (total : Complexity) (ctx : Ctx) (kb : KBMap) :
    Option (Complexity × KBMap) :=
  match stmts with
  | .nil => some (total, kb)
  | .cons stmt rest => do
    let (c, kb1) ← analyze oracle stmt ctx kb
    let total1 ← total.addC c
    analyzeStmts oracle rest total1 ctx kb1

/-- The IfStatement branch's
`self.analyze(node.else_block, ...) if node.else_block else
Complexity("1", "1", "1")`. -/
def analyzeElse (oracle : String → CostDict) (els : OptNode) (ctx : Ctx)
    (kb : KBMap) : Option (Complexity × KBMap) :=
  match els with
  | .none => some (Complexity.one, kb)
  | .some e => analyze oracle e ctx kb

end

/-!
## Tokenizer (src/src/parser.py lines 5-89)

Patterns are tried in the fixed `TOKEN_TYPES` priority order at each
position; each regex pattern is embedded as a direct matcher on the
remaining character list returning the matched text.  `MOD`/`DIV`
additionally require a non-identifier boundary and match
case-insensitively; `MISMATCH` raises `SyntaxError`.
-/

/-- A lexer token (class `Token`). -/
structure Token where
  type_ : String
  value : String
  line : Nat
  column : Nat
deriving Repr, DecidableEq

/-- `Token.__repr__`. -/
def tokenRepr (t : Token) : String :=
  "Token(" ++ t.type_ ++ ", " ++ t.value ++ ", " ++ toString t.line ++
    ":" ++ toString t.column ++ ")"

/-- ASCII lowercasing of one character (`str.lower()` restricted to
the ASCII range, which covers every keyword comparison in the code). -/
def charLower (c : Char) : Char :=
  if 'A' ≤ c ∧ c ≤ 'Z' then Char.ofNat (c.toNat + 32) else c

/-- ASCII lowercasing of a string (`str.lower()`). -/
def lowerStr (s : String) : String :=
  ⟨s.data.map charLower⟩

/-- Python repr of a string: single-quoted unless the text contains a
single quote and no double quote (the values this model reprs are
plain identifier/operator text, so no further escaping arises). -/
def pyReprStr (s : String) : String :=
  if s.data.contains '\x27' ∧ ¬ s.data.contains '"' then
    "\"" ++ s ++ "\""
  else
    "\x27" ++ s ++ "\x27"

/-- The character class `[a-zA-Z0-9_]` used for identifier characters
and the `MOD`/`DIV` boundary lookahead. -/
def isIdentChar (c : Char) : Bool :=
  c.isAlpha || c.isDigit || c = '_'

/-- Literal-text matcher: the pattern matches at the head of `cs`. -/
def litMatch (lit : List Char) (cs : List Char) : Option (List Char) :=
  if prefAt lit cs then some lit else none

/-- `COMMENT := ►.*` (rest of the line, `.` does not cross a newline). -/
def matchComment : List Char → Option (List Char)
  | '►' :: rest => some ('►' :: rest.takeWhile (fun c => c ≠ '\n'))
  | _ => none

/-- `STRING := "[^"]*"`. -/
def matchStr : List Char → Option (List Char)
  | '"' :: rest =>
    let mid := rest.takeWhile (fun c => c ≠ '"')
    if mid.length < rest.length then some ('"' :: mid ++ ['"']) else none
  | _ => none

/-- `NUMBER := \d+(\.\d+)?` (greedy). -/
def matchNum (cs : List Char) : Option (List Char) :=
  let ds := cs.takeWhile Char.isDigit
  if ds.isEmpty then none
  else
    match cs.drop ds.length with
    | '.' :: r2 =>
      let fs := r2.takeWhile Char.isDigit
      if fs.isEmpty then some ds else some (ds ++ '.' :: fs)
    | _ => some ds

/-- Case-insensitive match of `kw` returning the original text. -/
def matchCI : List Char → List Char → Option (List Char)
  | [], _ => some []
  | _ :: _, [] => none
  | k :: ks, c :: rest =>
    if charLower c = k then (matchCI ks rest).map (c :: ·) else none

/-- `MOD`/`DIV`: case-insensitive keyword followed by a non-identifier
boundary (`(?![a-zA-Z0-9_])`). -/
def matchKwBound (kw : List Char) (cs : List Char) : Option (List Char) :=
  match matchCI kw cs with
  | none => none
  | some orig =>
    match cs.drop kw.length with
    | [] => some orig
    | c :: _ => if isIdentChar c then none else some orig

/-- `ID := [a-zA-Z_][a-zA-Z0-9_]*`. -/
def matchId : List Char → Option (List Char)
  | c :: rest =>
    if c.isAlpha || c = '_' then some (c :: rest.takeWhile isIdentChar)
    else none
  | [] => none

/-- `SKIP := [ \t]+`. -/
def matchSkip (cs : List Char) : Option (List Char) :=
  let ws := cs.takeWhile (fun c => c = ' ' || c = '\t')
  if ws.isEmpty then none else some ws

/-- `MISMATCH := .` (any single character except newline). -/
def matchAny : List Char → Option (List Char)
  | c :: _ => if c = '\n' then none else some [c]
  | [] => none

/-- `Tokenizer.TOKEN_TYPES` (src/src/parser.py lines 16-46) in its
fixed priority order, each pattern as a matcher. -/
def tokPatterns : List (String × (List Char → Option (List Char))) :=
  [("COMMENT", matchComment),
   ("STRING", matchStr),
   ("NUMBER", matchNum),
   ("ASSIGN", fun cs => litMatch ['🡨'] cs <|> litMatch ['<', '-'] cs),
   ("LE", fun cs => litMatch ['≤'] cs <|> litMatch ['<', '='] cs),
   ("GE", fun cs => litMatch ['≥'] cs <|> litMatch ['>', '='] cs),
   ("NE", fun cs => litMatch ['≠'] cs <|> litMatch ['<', '>'] cs),
   ("EQ", litMatch ['=']),
   ("LT", litMatch ['<']),
   ("GT", litMatch ['>']),
   ("LPAREN", litMatch ['(']),
   ("RPAREN", litMatch [')']),
   ("LBRACKET", litMatch ['[']),
   ("RBRACKET", litMatch [']']),
   ("DOTDOT", litMatch ['.', '.']),
   ("DOT", litMatch ['.']),
   ("COMMA", litMatch [',']),
   ("PLUS", litMatch ['+']),
   ("MINUS", litMatch ['-']),
   ("MULTIPLY", litMatch ['*']),
   ("DIVIDE", litMatch ['/']),
   ("MOD", matchKwBound ['m', 'o', 'd']),
   ("DIV", matchKwBound ['d', 'i', 'v']),
   ("CEIL", fun cs => litMatch ['┌'] cs <|> litMatch ['c', 'e', 'i', 'l'] cs),
   ("FLOOR", fun cs => litMatch ['└'] cs <|> litMatch ['f', 'l', 'o', 'o', 'r'] cs),
   ("ID", matchId),
   ("NEWLINE", litMatch ['\n']),
   ("SKIP", matchSkip),
   ("MISMATCH", matchAny)]

/-- First pattern of the priority list that matches at the current
position. -/
def firstPat : List (String × (List Char → Option (List Char))) →
    List Char → Option (String × List Char)
  | [], _ => none
  | (name, m) :: rest, cs =>
    match m cs with
    | some text => some (name, text)
    | none => firstPat rest cs

/-- The scanning loop of `Tokenizer.tokenize` (src/src/parser.py lines
55-89): per-type handling of the first matching pattern, position and
line/column bookkeeping, `SyntaxError` on `MISMATCH`.  Fuel bounds the
iteration count; every match consumes at least one character, so
`code.length + 1` is always enough. -/
def tokenizeLoop : Nat → List Char → Nat → Nat → List Token →
    Except String (List Token)
  | 0, _, _, _, _ => .error "fuel exhausted"
  | _ + 1, [], _, _, acc => .ok acc.reverse
  | fuel + 1, cs, line, col, acc =>
    match firstPat tokPatterns cs with
    | none => .error ("Unexpected character on line " ++ toString line)
    | some (ttype, text) =>
      let rest := cs.drop text.length
      if ttype = "NEWLINE" then
        tokenizeLoop fuel rest (line + 1) 1 acc
      else if ttype = "SKIP" then
        tokenizeLoop fuel rest line (col + text.length) acc
      else if ttype = "COMMENT" then
        tokenizeLoop fuel rest line col acc
      else if ttype = "MISMATCH" then
        .error ("Unexpected character " ++ pyReprStr ⟨text⟩ ++ " on line " ++
          toString line)
      else
        tokenizeLoop fuel rest line (col + text.length)
          (Token.mk ttype ⟨text⟩ line col :: acc)

/-- `Tokenizer(code).tokenize()`. -/
def tokenize (code : String) : Except String (List Token) :=
  tokenizeLoop (code.length + 1) code.data 1 1 []

/-!
## Python dataclass repr

`parse_assignment` stores `str(target_expr)` as the assignment target
and `parse_primary` flattens the base of a suffix chain with
`str(expr)`; `str` of a dataclass is its generated `repr`, i.e.
`ClassName(field=value, ...)` in declaration order with strings
repr-quoted.
-/

mutual

/-- Generated dataclass `repr` of a node. -/
def pyRepr : Node → String
  | .program name classes procedures main_block =>
    "Program(name=" ++ pyReprStr name ++ ", classes=[" ++
      String.intercalate ", " (pyReprList classes) ++ "], procedures=[" ++
      String.intercalate ", " (pyReprList procedures) ++ "], main_block=" ++
      pyRepr main_block ++ ")"
  | .classDef name attributes =>
    "ClassDef(name=" ++ pyReprStr name ++ ", attributes=[" ++
      String.intercalate ", " (attributes.map pyReprStr) ++ "])"
  | .procedureDef name params body =>
    "ProcedureDef(name=" ++ pyReprStr name ++ ", params=[" ++
      String.intercalate ", " (pyReprList params) ++ "], body=" ++
      pyRepr body ++ ")"
  | .parameter name type_info =>
    "Parameter(name=" ++ pyReprStr name ++ ", type_info=" ++
      pyReprStr type_info ++ ")"
  | .block statements =>
    "Block(statements=[" ++ String.intercalate ", " (pyReprList statements) ++
      "])"
  | .assignment target value =>
    "Assignment(target=" ++ pyReprStr target ++ ", value=" ++ pyRepr value ++
      ")"
  | .ifStatement condition then_block else_block =>
    "IfStatement(condition=" ++ pyRepr condition ++ ", then_block=" ++
      pyRepr then_block ++ ", else_block=" ++ pyReprOpt else_block ++ ")"
  | .forLoop v start_value end_value body =>
    "ForLoop(variable=" ++ pyReprStr v ++ ", start_value=" ++
      pyRepr start_value ++ ", end_value=" ++ pyRepr end_value ++ ", body=" ++
      pyRepr body ++ ")"
  | .whileLoop condition body =>
    "WhileLoop(condition=" ++ pyRepr condition ++ ", body=" ++ pyRepr body ++
      ")"
  | .repeatLoop condition body =>
    "RepeatLoop(condition=" ++ pyRepr condition ++ ", body=" ++ pyRepr body ++
      ")"
  | .call procedure_name arguments =>
    "Call(procedure_name=" ++ pyReprStr procedure_name ++ ", arguments=[" ++
      String.intercalate ", " (pyReprList arguments) ++ "])"
  | .binaryOp left operator right =>
    "BinaryOp(left=" ++ pyRepr left ++ ", operator=" ++ pyReprStr operator ++
      ", right=" ++ pyRepr right ++ ")"
  | .unaryOp operator operand =>
    "UnaryOp(operator=" ++ pyReprStr operator ++ ", operand=" ++
      pyRepr operand ++ ")"
  | .literal value type_name =>
    "Literal(value=" ++ pyReprStr value ++ ", type_name=" ++
      pyReprStr type_name ++ ")"
  | .«variable» name => "Variable(name=" ++ pyReprStr name ++ ")"
  | .arrayAccess array_name index =>
    "ArrayAccess(array_name=" ++ pyReprStr array_name ++ ", index=" ++
      pyRepr index ++ ")"
  | .fieldAccess object_name field_name =>
    "FieldAccess(object_name=" ++ pyReprStr object_name ++ ", field_name=" ++
      pyReprStr field_name ++ ")"

/-- Reprs of the elements of a node list. -/
def pyReprList : NodeList → List String
  | .nil => []
  | .cons hd tl => pyRepr hd :: pyReprList tl

/-- Repr of an optional node (`None` when absent). -/
def pyReprOpt : OptNode → String
  | .none => "None"
  | .some n => pyRepr n

end

/-!
## Parser (src/src/parser.py lines 91-393)

`Parser` holds the token list and a cursor `self.pos`; the embedding
is a state monad over the cursor with the token list passed alongside,
and `SyntaxError` as the exception.  Every parse function takes
explicit fuel bounding the recursion depth — the Python code recurses
unboundedly on malformed nesting, while every claim below concerns a
concrete input for which any sufficiently large fuel is enough.
Python expressions that would raise `AttributeError` by calling a
method on `None` (e.g. `self.peek().type` at end of input) are
embedded as that error.
-/

/-- Parser computations: state = `self.pos`, errors = `SyntaxError`
messages. -/
abbrev PM (α : Type) : Type := StateT Nat (Except String) α

/-- `AttributeError` from using `None` where a token was assumed. -/
def attrErr : String := "AttributeError: NoneType"

/-- `Parser.peek(offset)`. -/
def peekT (ts : List Token) (off : Nat) : PM (Option Token) := do
  let pos ← get
  pure (ts.get? (pos + off))

/-- `Parser.consume()` with no expected type. -/
def consumeAny (ts : List Token) : PM Token := do
  match ← peekT ts 0 with
  | none => throw "Unexpected end of input"
  | some tok => do
    modify (· + 1)
    pure tok

/-- `Parser.consume(type_)` with an expected token type. -/
def consumeTyped (ts : List Token) (type_ : String) : PM Token := do
  match ← peekT ts 0 with
  | none => throw "Unexpected end of input"
  | some tok =>
    if tok.type_ ≠ type_ then
      throw ("Expected " ++ type_ ++ ", got " ++ tok.type_ ++ " (\x27" ++
        tok.value ++ "\x27) at line " ++ toString tok.line)
    else do
      modify (· + 1)
      pure tok

/-- `Parser.match(type_)`: consume and report success if the next
token has the given type. -/
def matchT (ts : List Token) (type_ : String) : PM Bool := do
  match ← peekT ts 0 with
  | some tok =>
    if tok.type_ = type_ then do
      modify (· + 1)
      pure true
    else pure false
  | none => pure false

/-- `Parser.consume_keyword(keyword)`. -/
def consume_keyword (ts : List Token) (kw : String) : PM Unit := do
  match ← peekT ts 0 with
  | some tok =>
    if tok.type_ = "ID" ∧ lowerStr tok.value = lowerStr kw then do
      modify (· + 1)
      pure ()
    else
      throw ("Expected keyword \x27" ++ kw ++ "\x27, got " ++ tokenRepr tok)
  | none => throw ("Expected keyword \x27" ++ kw ++ "\x27, got None")

mutual

/-- `Parser.parse_program`: classes, then procedures (recognized by
`ID` followed by `LPAREN`), then an optional `begin … end` main block
(whose closing word is consumed as a bare `ID`). -/
def parse_program (ts : List Token) : Nat → PM Node
  | 0 => throw "recursion fuel exhausted"
  | fuel + 1 => do
    let classes ← parseClassesLoop ts fuel
    let procedures ← parseProcsLoop ts fuel
    let main_block ← do
      match ← peekT ts 0 with
      | some tok =>
        if lowerStr tok.value = "begin" then do
          let _ ← consumeAny ts
          let mb ← parse_block_body ts fuel
          let _ ← consumeTyped ts "ID"
          pure mb
        else pure (Node.block .nil)
      | none => pure (Node.block .nil)
    pure (.program "Program" classes procedures main_block)

/-- The `while … 'clase'` loop of `parse_program`. -/
def parseClassesLoop (ts : List Token) : Nat → PM NodeList
  | 0 => throw "recursion fuel exhausted"
  | fuel + 1 => do
    match ← peekT ts 0 with
    | some tok =>
      if lowerStr tok.value = "clase" then do
        let c ← parse_class_def ts fuel
        let rest ← parseClassesLoop ts fuel
        pure (.cons c rest)
      else pure .nil
    | none => pure .nil

/-- The `while … ID LPAREN` loop of `parse_program`. -/
def parseProcsLoop (ts : List Token) : Nat → PM NodeList
  | 0 => throw "recursion fuel exhausted"
  | fuel + 1 => do
    let p0 ← peekT ts 0
    let p1 ← peekT ts 1
    match p0, p1 with
    | some t0, some t1 =>
      if t0.type_ = "ID" ∧ t1.type_ = "LPAREN" then do
        let p ← parse_procedure_def ts fuel
        let rest ← parseProcsLoop ts fuel
        pure (.cons p rest)
      else pure .nil
    | _, _ => pure .nil

/-- `Parser.parse_class_def`: consumes the `Clase` word and the name,
then expects `LBRACE`/`RBRACE` tokens — token types the tokenizer
never produces. -/
def parse_class_def (ts : List Token) : Nat → PM Node
  | 0 => throw "recursion fuel exhausted"
  | fuel + 1 => do
    let _ ← consumeTyped ts "ID"
    let name ← consumeTyped ts "ID"
    let _ ← consumeTyped ts "LBRACE"
    let attrs ← parseClassAttrs ts fuel
    let _ ← consumeTyped ts "RBRACE"
    pure (.classDef name.value attrs)

/-- The attribute loop of `parse_class_def`. -/
def parseClassAttrs (ts : List Token) : Nat → PM (List String)
  | 0 => throw "recursion fuel exhausted"
  | fuel + 1 => do
    match ← peekT ts 0 with
    | some tok =>
      if tok.type_ ≠ "RBRACE" then do
        let a ← consumeTyped ts "ID"
        let rest ← parseClassAttrs ts fuel
        pure (a.value :: rest)
      else pure []
    | none => pure []

/-- `Parser.parse_procedure_def`. -/
def parse_procedure_def (ts : List Token) : Nat → PM Node
  | 0 => throw "recursion fuel exhausted"
  | fuel + 1 => do
    let name ← consumeTyped ts "ID"
    let _ ← consumeTyped ts "LPAREN"
    let params ← do
      match ← peekT ts 0 with
      | none => throw attrErr
      | some tok =>
        if tok.type_ ≠ "RPAREN" then parseParamsLoop ts fuel
        else pure NodeList.nil
    let _ ← consumeTyped ts "RPAREN"
    consume_keyword ts "begin"
    let body ← parse_block_body ts fuel
    consume_keyword ts "end"
    pure (.procedureDef name.value params body)

/-- The `while True … if not match(COMMA): break` parameter loop. -/
def parseParamsLoop (ts : List Token) : Nat → PM NodeList
  | 0 => throw "recursion fuel exhausted"
  | fuel + 1 => do
    let param ← parseOneParam ts fuel
    let more ← matchT ts "COMMA"
    if more then do
      let rest ← parseParamsLoop ts fuel
      pure (.cons param rest)
    else pure (.cons param .nil)

/-- One parameter: `Clase ClassName objName`, an array name with
bracketed dimension groups, or a scalar name (`type_info` stays
`"Unknown"`). -/
def parseOneParam (ts : List Token) : Nat → PM Node
  | 0 => throw "recursion fuel exhausted"
  | fuel + 1 => do
    match ← peekT ts 0 with
    | none => throw attrErr
    | some tok =>
      if lowerStr tok.value = "clase" then do
        let _ ← consumeAny ts
        let type_info ← consumeTyped ts "ID"
        let param_name ← consumeTyped ts "ID"
        pure (.parameter param_name.value type_info.value)
      else do
        let param_name ← consumeTyped ts "ID"
        match ← peekT ts 0 with
        | none => throw attrErr
        | some t2 =>
          if t2.type_ = "LBRACKET" then do
            parseDimsLoop ts fuel
            pure (.parameter param_name.value "Array")
          else pure (.parameter param_name.value "Unknown")

/-- The `while self.match('LBRACKET')` dimension loop. -/
def parseDimsLoop (ts : List Token) : Nat → PM Unit
  | 0 => throw "recursion fuel exhausted"
  | fuel + 1 => do
    let b ← matchT ts "LBRACKET"
    if b then do
      skipToRBracket ts fuel
      let _ ← consumeTyped ts "RBRACKET"
      let _ ← matchT ts "DOTDOT"
      parseDimsLoop ts fuel
    else pure ()

/-- The inner `while self.peek().type != 'RBRACKET': self.consume()`. -/
def skipToRBracket (ts : List Token) : Nat → PM Unit
  | 0 => throw "recursion fuel exhausted"
  | fuel + 1 => do
    match ← peekT ts 0 with
    | none => throw attrErr
    | some tok =>
      if tok.type_ ≠ "RBRACKET" then do
        let _ ← consumeAny ts
        skipToRBracket ts fuel
      else pure ()

/-- `Parser.parse_block_body`: statements until a token spelled `end`,
`until` or `else` (left unconsumed), or end of input. -/
def parse_block_body (ts : List Token) : Nat → PM Node
  | 0 => throw "recursion fuel exhausted"
  | fuel + 1 => do
    let stmts ← parseStmtsLoop ts fuel
    pure (.block stmts)

/-- The statement loop of `parse_block_body`. -/
def parseStmtsLoop (ts : List Token) : Nat → PM NodeList
  | 0 => throw "recursion fuel exhausted"
  | fuel + 1 => do
    match ← peekT ts 0 with
    | none => pure .nil
    | some tok =>
      let val := lowerStr tok.value
      if val = "end" ∨ val = "until" ∨ val = "else" then pure .nil
      else do
        let s ← parse_statement ts fuel
        let rest ← parseStmtsLoop ts fuel
        pure (.cons s rest)

/-- `Parser.parse_statement`: dispatch on the first token's lowercased
text, any other `ID`-led statement being an assignment. -/
def parse_statement (ts : List Token) : Nat → PM Node
  | 0 => throw "recursion fuel exhausted"
  | fuel + 1 => do
    match ← peekT ts 0 with
    | none => throw attrErr
    | some token =>
      let val := lowerStr token.value
      if val = "if" then parse_if ts fuel
      else if val = "for" then parse_for ts fuel
      else if val = "while" then parse_while ts fuel
      else if val = "repeat" then parse_repeat ts fuel
      else if val = "call" then parse_call ts fuel
      else if token.type_ = "ID" then parse_assignment ts fuel
      else
        throw ("Unexpected token " ++ tokenRepr token ++
          " at start of statement")

/-- `Parser.parse_assignment`: lvalue through the expression grammar,
flattened with `str(...)`, then the assignment operator and the value. -/
def parse_assignment (ts : List Token) : Nat → PM Node
  | 0 => throw "recursion fuel exhausted"
  | fuel + 1 => do
    let target_expr ← parse_expression ts fuel
    let ok ← matchT ts "ASSIGN"
    if ok then do
      let value ← parse_expression ts fuel
      pure (.assignment (pyRepr target_expr) value)
    else
      match ← peekT ts 0 with
      | some tok =>
        throw ("Expected assignment operator at line " ++ toString tok.line)
      | none => throw attrErr

/-- `Parser.parse_if`. -/
def parse_if (ts : List Token) : Nat → PM Node
  | 0 => throw "recursion fuel exhausted"
  | fuel + 1 => do
    consume_keyword ts "if"
    let _ ← consumeTyped ts "LPAREN"
    let condition ← parse_expression ts fuel
    let _ ← consumeTyped ts "RPAREN"
    consume_keyword ts "then"
    consume_keyword ts "begin"
    let then_block ← parse_block_body ts fuel
    consume_keyword ts "end"
    match ← peekT ts 0 with
    | some tok =>
      if lowerStr tok.value = "else" then do
        let _ ← consumeAny ts
        consume_keyword ts "begin"
        let else_block ← parse_block_body ts fuel
        consume_keyword ts "end"
        pure (.ifStatement condition then_block (.some else_block))
      else pure (.ifStatement condition then_block .none)
    | none => pure (.ifStatement condition then_block .none)

/-- `Parser.parse_for`. -/
def parse_for (ts : List Token) : Nat → PM Node
  | 0 => throw "recursion fuel exhausted"
  | fuel + 1 => do
    consume_keyword ts "for"
    let v ← consumeTyped ts "ID"
    let _ ← consumeTyped ts "ASSIGN"
    let start_val ← parse_expression ts fuel
    consume_keyword ts "to"
    let end_val ← parse_expression ts fuel
    consume_keyword ts "do"
    consume_keyword ts "begin"
    let body ← parse_block_body ts fuel
    consume_keyword ts "end"
    pure (.forLoop v.value start_val end_val body)

/-- `Parser.parse_while`. -/
def parse_while (ts : List Token) : Nat → PM Node
  | 0 => throw "recursion fuel exhausted"
  | fuel + 1 => do
    consume_keyword ts "while"
    let _ ← consumeTyped ts "LPAREN"
    let condition ← parse_expression ts fuel
    let _ ← consumeTyped ts "RPAREN"
    consume_keyword ts "do"
    consume_keyword ts "begin"
    let body ← parse_block_body ts fuel
    consume_keyword ts "end"
    pure (.whileLoop condition body)

/-- `Parser.parse_repeat` (body precedes `until (cond)`). -/
def parse_repeat (ts : List Token) : Nat → PM Node
  | 0 => throw "recursion fuel exhausted"
  | fuel + 1 => do
    consume_keyword ts "repeat"
    let body ← parse_block_body ts fuel
    consume_keyword ts "until"
    let _ ← consumeTyped ts "LPAREN"
    let condition ← parse_expression ts fuel
    let _ ← consumeTyped ts "RPAREN"
    pure (.repeatLoop condition body)

/-- `Parser.parse_call`. -/
def parse_call (ts : List Token) : Nat → PM Node
  | 0 => throw "recursion fuel exhausted"
  | fuel + 1 => do
    consume_keyword ts "call"
    let proc_name ← consumeTyped ts "ID"
    let _ ← consumeTyped ts "LPAREN"
    let args ← do
      match ← peekT ts 0 with
      | none => throw attrErr
      | some tok =>
        if tok.type_ ≠ "RPAREN" then parseArgsLoop ts fuel
        else pure NodeList.nil
    let _ ← consumeTyped ts "RPAREN"
    pure (.call proc_name.value args)

/-- The argument loop of `parse_call`. -/
def parseArgsLoop (ts : List Token) : Nat → PM NodeList
  | 0 => throw "recursion fuel exhausted"
  | fuel + 1 => do
    let arg ← parse_expression ts fuel
    let more ← matchT ts "COMMA"
    if more then do
      let rest ← parseArgsLoop ts fuel
      pure (.cons arg rest)
    else pure (.cons arg .nil)

/-- `Parser.parse_expression`. -/
def parse_expression (ts : List Token) : Nat → PM Node
  | 0 => throw "recursion fuel exhausted"
  | fuel + 1 => parse_relational ts fuel

/-- `Parser.parse_relational`. -/
def parse_relational (ts : List Token) : Nat → PM Node
  | 0 => throw "recursion fuel exhausted"
  | fuel + 1 => do
    let left ← parse_term ts fuel
    parseRelChain ts left fuel

/-- The relational-operator chain of `parse_relational`. -/
def parseRelChain (ts : List Token) (left : Node) : Nat → PM Node
  | 0 => throw "recursion fuel exhausted"
  | fuel + 1 => do
    match ← peekT ts 0 with
    | some tok =>
      if tok.type_ = "LT" ∨ tok.type_ = "GT" ∨ tok.type_ = "LE" ∨
          tok.type_ = "GE" ∨ tok.type_ = "EQ" ∨ tok.type_ = "NE" then do
        let op ← consumeAny ts
        let right ← parse_term ts fuel
        parseRelChain ts (.binaryOp left op.value right) fuel
      else pure left
    | none => pure left

/-- `Parser.parse_term` (additive level). -/
def parse_term (ts : List Token) : Nat → PM Node
  | 0 => throw "recursion fuel exhausted"
  | fuel + 1 => do
    let left ← parse_factor ts fuel
    parseAddChain ts left fuel

/-- The `PLUS`/`MINUS` chain of `parse_term`. -/
def parseAddChain (ts : List Token) (left : Node) : Nat → PM Node
  | 0 => throw "recursion fuel exhausted"
  | fuel + 1 => do
    match ← peekT ts 0 with
    | some tok =>
      if tok.type_ = "PLUS" ∨ tok.type_ = "MINUS" then do
        let op ← consumeAny ts
        let right ← parse_factor ts fuel
        parseAddChain ts (.binaryOp left op.value right) fuel
      else pure left
    | none => pure left

/-- `Parser.parse_factor` (multiplicative level). -/
def parse_factor (ts : List Token) : Nat → PM Node
  | 0 => throw "recursion fuel exhausted"
  | fuel + 1 => do
    let left ← parse_primary ts fuel
    parseMulChain ts left fuel

/-- The `MULTIPLY`/`DIVIDE`/`MOD`/`DIV` chain of `parse_factor`. -/
def parseMulChain (ts : List Token) (left : Node) : Nat → PM Node
  | 0 => throw "recursion fuel exhausted"
  | fuel + 1 => do
    match ← peekT ts 0 with
    | some tok =>
      if tok.type_ = "MULTIPLY" ∨ tok.type_ = "DIVIDE" ∨
          tok.type_ = "MOD" ∨ tok.type_ = "DIV" then do
        let op ← consumeAny ts
        let right ← parse_primary ts fuel
        parseMulChain ts (.binaryOp left op.value right) fuel
      else pure left
    | none => pure left

/-- `Parser.parse_primary`: parenthesized expression, number or string
literal, identifier with `.field` / `[index]` suffix chain, or
`length(expr)`. -/
def parse_primary (ts : List Token) : Nat → PM Node
  | 0 => throw "recursion fuel exhausted"
  | fuel + 1 => do
    let token ← peekT ts 0
    let paren ← matchT ts "LPAREN"
    if paren then do
      let expr ← parse_expression ts fuel
      let _ ← consumeTyped ts "RPAREN"
      pure expr
    else
      match token with
      | none => throw attrErr
      | some tok =>
        if tok.type_ = "NUMBER" then do
          let _ ← consumeAny ts
          pure (.literal tok.value "Integer")
        else if tok.type_ = "STRING" then do
          let _ ← consumeAny ts
          pure (.literal tok.value "String")
        else if tok.type_ = "ID" then do
          let nameTok ← consumeAny ts
          parseSuffixChain ts (.«variable» nameTok.value) fuel
        else if lowerStr tok.value = "length" then do
          let _ ← consumeAny ts
          let _ ← consumeTyped ts "LPAREN"
          let arg ← parse_expression ts fuel
          let _ ← consumeTyped ts "RPAREN"
          pure (.unaryOp "length" arg)
        else throw ("Unexpected token in expression: " ++ tokenRepr tok)

/-- The `while True: .field / [index]` suffix chain of
`parse_primary`, flattening the prior expression with `str(...)`. -/
def parseSuffixChain (ts : List Token) (expr : Node) : Nat → PM Node
  | 0 => throw "recursion fuel exhausted"
  | fuel + 1 => do
    let dot ← matchT ts "DOT"
    if dot then do
      let field ← consumeTyped ts "ID"
      parseSuffixChain ts (.fieldAccess (pyRepr expr) field.value) fuel
    else do
      let bracket ← matchT ts "LBRACKET"
      if bracket then do
        let index ← parse_expression ts fuel
        let _ ← consumeTyped ts "RBRACKET"
        parseSuffixChain ts (.arrayAccess (pyRepr expr) index) fuel
      else pure expr

end

/-- End-to-end front end: tokenize, then
`Parser(tokens).parse_program()` from cursor 0 (fuel 500 bounds the
recursion depth, ample for the concrete inputs considered here). -/
def parseSource (code : String) : Except String Node := do
  let toks ← tokenize code
  let (prog, _) ← (parse_program toks 500).run 0
  pure prog

/-!
## Concrete example inputs for the claims
-/

/-- A constant-cost statement `x <- 1`. -/
def unitAssign : Node := .assignment "x" (.literal "1" "Integer")

/-- The inner loop of the dependent nest:
`for j := 1 to i do begin x <- 1 end`. -/
def innerLoopI : Node :=
  .forLoop "j" (.literal "1" "Integer") (.«variable» "i")
    (.block (.cons unitAssign .nil))

/-- The nested program of the dependency-detection claim:
`for i := 1 to n do begin for j := 1 to i do begin s end end`. -/
def nestDep : Node :=
  .forLoop "i" (.literal "1" "Integer") (.«variable» "n")
    (.block (.cons innerLoopI .nil))

/-- The context the analyzer carries when it reaches the inner loop of
`nestDep`: the outer ForLoop extended the empty context with
`new_context['loop_var'] = 'i'`. -/
def ctxAfterOuter : Ctx := ctxPut [] "loop_var" "i"

/-- The independent nest:
`for i := 1 to n do begin for j := 1 to m do begin x <- 1 end end`. -/
def nestIndep : Node :=
  .forLoop "i" (.literal "1" "Integer") (.«variable» "n")
    (.block (.cons
      (.forLoop "j" (.literal "1" "Integer") (.«variable» "m")
        (.block (.cons unitAssign .nil))) .nil))

/-- A while loop with constant-cost body (cost `n`). -/
def whileStmt : Node :=
  .whileLoop (.binaryOp (.«variable» "x") ">" (.literal "0" "Integer"))
    (.block (.cons (.assignment "a" (.literal "1" "Integer")) .nil))

/-- A doubly nested independent for-loop (cost `n^2`). -/
def forTwoDeep : Node :=
  .forLoop "i" (.literal "1" "Integer") (.«variable» "n")
    (.block (.cons
      (.forLoop "j" (.literal "1" "Integer") (.«variable» "m")
        (.block (.cons (.assignment "b" (.literal "2" "Integer")) .nil)))
      .nil))

/-- A triply nested independent for-loop (cost `n^3`). -/
def forThreeDeep : Node :=
  .forLoop "i2" (.literal "1" "Integer") (.«variable» "n")
    (.block (.cons
      (.forLoop "j2" (.literal "1" "Integer") (.«variable» "m")
        (.block (.cons
          (.forLoop "k2" (.literal "1" "Integer") (.«variable» "p")
            (.block (.cons (.assignment "c" (.literal "3" "Integer")) .nil)))
          .nil)))
      .nil))

/-- The block whose analysis adds `max(n, n^2)` to `n^3`: a while
loop, a doubly nested independent for-loop, and a triply nested
independent for-loop in sequence. -/
def crashBlock : Node :=
  .block (.cons whileStmt (.cons forTwoDeep (.cons forThreeDeep .nil)))

/-- The if-statement of the conservatism claim: condition `x > 0`
(cost 1), then-branch of cost `n`, else-branch of cost 1. -/
def ifExample : Node :=
  .ifStatement (.binaryOp (.«variable» "x") ">" (.literal "0" "Integer"))
    (.block (.cons whileStmt .nil))
    (.some (.block (.cons (.assignment "y" (.literal "2" "Integer")) .nil)))

/-- A block of three assignments, each with a cost-1 value
expression. -/
def threeAssigns : Node :=
  .block (.cons (.assignment "x" (.literal "1" "Integer"))
    (.cons (.assignment "y" (.literal "2" "Integer"))
      (.cons (.assignment "z" (.literal "3" "Integer")) .nil)))

/-- A dependent inner loop: its end expression is the variable
`loop_var`, which IS a key of the context after any enclosing ForLoop
(the analyzer stores the enclosing loop's variable under the fixed key
`'loop_var'`). -/
def depInner : Node :=
  .forLoop "j" (.literal "1" "Integer") (.«variable» "loop_var")
    (.block (.cons unitAssign .nil))

/-- An enclosing loop making `depInner` dependent:
`for loop_var := 1 to n do begin for j := 1 to loop_var do … end`. -/
def depOuter : Node :=
  .forLoop "loop_var" (.literal "1" "Integer") (.«variable» "n")
    (.block (.cons depInner .nil))

/-- `AIEngine.analyze_complexity` when `GEMINI_API_KEY` is not set
(src/src/ai_engine.py lines 23-24): the oracle returns the error
dictionary without raising. -/
def noKeyOracle : String → CostDict :=
  fun _ => ⟨"Error: Missing API Key", "Error", "Error"⟩

/-- The stored error dictionary produced by `noKeyOracle`. -/
def errDict : CostDict := ⟨"Error: Missing API Key", "Error", "Error"⟩

/-- The error triple `Complexity.from_dict(errDict)`. -/
def errTriple : Complexity := ⟨"Error: Missing API Key", "Error", "Error"⟩

/-- A trivial oracle used to instantiate universally quantified oracle
arguments in witnesses. -/
def unitOracle : String → CostDict := fun _ => ⟨"1", "1", "1"⟩

/-!
## Helper lemmas
-/

/-- Both branches of `estimate_iterations` return `("n", "n", "n")`,
so the estimate ignores the loop's start and end expressions. -/
theorem estimate_iterations_const (sv ev : Node) :
    estimate_iterations sv ev = Complexity.nTriple := by
  cases ev <;> simp [estimate_iterations]

/-!
## Claim theorems
-/

/-- C1: for the nest `for i := 1 to n do begin for j := 1 to i do
begin s end end`, the claim says the analyzer's context at the inner
loop contains the enclosing loop variable `i`, the dependency check
classifies the inner loop as dependent, and the oracle path is taken.
The code does the opposite: the outer loop stores its variable under
the fixed key `'loop_var'` while `check_dependency` tests variable
names against the context KEYS, so the inner loop (end expression
`Variable i`) is classified independent, and the whole nest is
analyzed by the local multiply path — the result `(n^2, n^2, n^2)` is
the same for every oracle, so the oracle is never consulted. -/
theorem c1_dependency_check_misses_enclosing_variable :
    ctxKeys ctxAfterOuter = ["loop_var"] ∧
    check_dependency (.literal "1" "Integer") (.«variable» "i")
      ctxAfterOuter = false ∧
    ∀ oracle : String → CostDict,
      (analyze oracle nestDep [] []).map Prod.fst =
        some ⟨"n^2", "n^2", "n^2"⟩ :=
  ⟨rfl, rfl, fun _ => rfl⟩

/-- C2: the claim says `analyze` is total and `_add_term` never fails
on terms analysis can produce.  In fact `_add_term("max(n, n^2)",
"n^3")` takes the branch for two power-of-n terms (both contain the
substring `n^`) and calls `int("2)")`, raising `ValueError`; a block
holding a while loop, a doubly nested independent for-loop and a
triply nested independent for-loop in sequence reaches exactly this
addition, so `analyze` raises on it (modelled as `none`) for every
oracle. -/
theorem c2_term_addition_not_total :
    addTerm "max(n, n^2)" "n^3" = none ∧
    ∀ oracle : String → CostDict,
      analyze oracle crashBlock [] [] = none :=
  ⟨by decide, fun _ => rfl⟩

/-- C3 counterexample: a WhileLoop and a RepeatLoop with identical
condition and body are distinct subtrees yet receive the SAME
signature — `to_dict` records only the field dictionary
`{condition, body}` with no variant tag, so the claim's "different
variants must produce different signatures" is false. -/
theorem c3_while_repeat_signature_collision :
    signatureOf whileStmt =
      signatureOf (.repeatLoop
        (.binaryOp (.«variable» "x") ">" (.literal "0" "Integer"))
        (.block (.cons (.assignment "a" (.literal "1" "Integer")) .nil))) ∧
    whileStmt ≠ Node.repeatLoop
      (.binaryOp (.«variable» "x") ">" (.literal "0" "Integer"))
      (.block (.cons (.assignment "a" (.literal "1" "Integer")) .nil)) :=
  ⟨rfl, by
    intro h
    rw [whileStmt] at h
    exact Node.noConfusion h⟩

/-- C3 amended: the signature is computed from the node's field
dictionary only, so structurally identical subtrees always agree, but
the node variant is NOT part of the signature: every WhileLoop and
RepeatLoop pair with the same condition and body fields produce equal
serializations and hence equal signatures. -/
theorem c3_signature_ignores_node_variant :
    ∀ condition body : Node,
      signatureOf (.whileLoop condition body) =
        signatureOf (.repeatLoop condition body) :=
  fun _ _ => rfl

/-- C4: the claim says every `Clase name { identifier* }` source
tokenizes and parses into a ClassDef.  The tokenizer has no pattern
producing the `LBRACE`/`RBRACE` token types that `parse_class_def`
consumes (the source itself remarks "We need LBRACE in tokenizer!"),
so `{` falls through to `MISMATCH` and tokenization raises
`SyntaxError` — the whole pipeline fails on any class definition. -/
theorem c4_class_def_brace_fails_tokenization :
    tokenize "Clase P \x7b x \x7d begin end" =
      .error "Unexpected character \x27\x7b\x27 on line 1" ∧
    parseSource "Clase P \x7b x \x7d begin end" =
      .error "Unexpected character \x27\x7b\x27 on line 1" :=
  ⟨rfl, rfl⟩

/-- C5: the cost-algebra laws hold exactly as stated:
`add("1","1") = "1"`, `add("n","1") = "n"`, `add("n^2","n^3") = "n^3"`,
`multiply("n","n") = "n^2"`, `multiply("n^2","n") = "n^3"`, and
`multiply("1", t) = t` for every term `t` of the term grammar. -/
theorem c5_cost_algebra_laws :
    addTerm "1" "1" = some "1" ∧
    addTerm "n" "1" = some "n" ∧
    addTerm "n^2" "n^3" = some "n^3" ∧
    mulTerm "n" "n" = some "n^2" ∧
    mulTerm "n^2" "n" = some "n^3" ∧
    ∀ t : Term, mulTerm "1" t.render = some t.render := by
  refine ⟨rfl, rfl, by decide, rfl, by decide, ?_⟩
  intro t
  simp [mulTerm]

/-- C6: for an independent ForLoop the analyzer estimates the
iteration count as the symbolic `n` triple regardless of the start and
end expressions, extends the context with the loop's variable (stored
under the key `'loop_var'`), and returns `multiply(n, cost(body,
extended context))` before memoizing; consequently the nest
`for i := 1 to n do begin for j := 1 to m do begin s end end` with a
constant-cost body has cost triple `(n^2, n^2, n^2)`. -/
theorem c6_independent_for_loop_semantics :
    (∀ sv ev : Node, estimate_iterations sv ev = Complexity.nTriple) ∧
    (∀ (oracle : String → CostDict) (v : String) (sv ev b : Node)
        (ctx : Ctx) (kb : KBMap),
      check_dependency sv ev ctx = false →
      kbGet kb (signatureOf (.forLoop v sv ev b)) = none →
      analyze oracle (.forLoop v sv ev b) ctx kb =
        match analyze oracle b (ctxPut ctx "loop_var" v) kb with
        | none => none
        | some (body_cost, kb1) =>
          match Complexity.nTriple.mulC body_cost with
          | none => none
          | some r =>
            some (r, kbPut kb1 (signatureOf (.forLoop v sv ev b))
              r.toDictC)) ∧
    (∀ oracle : String → CostDict,
      (analyze oracle nestIndep [] []).map Prod.fst =
        some ⟨"n^2", "n^2", "n^2"⟩) := by
  refine ⟨estimate_iterations_const, ?_, fun _ => rfl⟩
  intro oracle v sv ev b ctx kb hdep hkb
  rw [analyze]
  rw [hkb, hdep]
  rw [estimate_iterations_const]
  cases hb : analyze oracle b (ctxPut ctx "loop_var" v) kb with
  | none => simp [hb]
  | some p =>
    cases p with
    | mk bc kb1 =>
      cases hm : Complexity.nTriple.mulC bc with
      | none => simp [hb, hm]
      | some r => simp [hb, hm]

set_option maxRecDepth 100000 in
/-- C6 witness: the independent-ForLoop equation instantiated at a
concrete loop `for j := 1 to m` with a literal body, empty context and
empty knowledge base, with both hypotheses discharged by evaluation. -/
theorem c6_independent_for_loop_semantics_witness :
    check_dependency (.literal "1" "Integer") (.«variable» "m") [] = false ∧
    kbGet [] (signatureOf (.forLoop "j" (.literal "1" "Integer")
      (.«variable» "m") (.literal "5" "Integer"))) = none ∧
    analyze unitOracle (.forLoop "j" (.literal "1" "Integer")
        (.«variable» "m") (.literal "5" "Integer")) [] [] =
      match analyze unitOracle (.literal "5" "Integer")
          (ctxPut [] "loop_var" "j") [] with
      | none => none
      | some (body_cost, kb1) =>
        match Complexity.nTriple.mulC body_cost with
        | none => none
        | some r =>
          some (r, kbPut kb1 (signatureOf (.forLoop "j"
            (.literal "1" "Integer") (.«variable» "m")
            (.literal "5" "Integer"))) r.toDictC) :=
  ⟨rfl, rfl,
    c6_independent_for_loop_semantics.2.1 unitOracle "j" _ _ _ [] [] rfl rfl⟩

/-- C7: an IfStatement's cost is `add(cost(condition),
add(cost(then_block), cost(else_block)))` — branches are summed, not
maxed; and for the example with then-branch cost `n`, else-branch cost
`1`, condition cost `1`, the combined then/else term is `n`
(`add("n","1") = "n"`) and the if-statement's total cost is `n`. -/
theorem c7_if_branches_summed :
    (∀ (oracle : String → CostDict) (cond thenB elseB : Node) (ctx : Ctx)
        (kb kb1 kb2 kb3 : KBMap) (c t e mb r : Complexity),
      kbGet kb (signatureOf (.ifStatement cond thenB (.some elseB))) = none →
      analyze oracle cond ctx kb = some (c, kb1) →
      analyze oracle thenB ctx kb1 = some (t, kb2) →
      analyze oracle elseB ctx kb2 = some (e, kb3) →
      t.addC e = some mb →
      c.addC mb = some r →
      analyze oracle (.ifStatement cond thenB (.some elseB)) ctx kb =
        some (r, kbPut kb3
          (signatureOf (.ifStatement cond thenB (.some elseB)))
          r.toDictC)) ∧
    addTerm "n" "1" = some "n" ∧
    (∀ oracle : String → CostDict,
      (analyze oracle ifExample [] []).map Prod.fst =
        some ⟨"n", "n", "n"⟩) := by
  refine ⟨?_, rfl, fun _ => rfl⟩
  intro oracle cond thenB elseB ctx kb kb1 kb2 kb3 c t e mb r
  intro hkb hc ht he hadd1 hadd2
  rw [analyze]
  rw [hkb]
  simp [analyzeElse, hc, ht, he, hadd1, hadd2]

set_option maxRecDepth 100000 in
/-- C7 witness: the IfStatement equation instantiated at a concrete
if-statement over three literals from the empty knowledge base, every
hypothesis discharged by evaluation. -/
theorem c7_if_branches_summed_witness :
    kbGet [] (signatureOf (.ifStatement (.literal "0" "Integer")
      (.literal "1" "Integer") (.some (.literal "2" "Integer")))) = none ∧
    analyze unitOracle (.ifStatement (.literal "0" "Integer")
        (.literal "1" "Integer") (.some (.literal "2" "Integer"))) [] [] =
      some (Complexity.one,
        kbPut [(signatureOf (.literal "0" "Integer"), Complexity.one.toDictC),
               (signatureOf (.literal "1" "Integer"), Complexity.one.toDictC),
               (signatureOf (.literal "2" "Integer"), Complexity.one.toDictC)]
          (signatureOf (.ifStatement (.literal "0" "Integer")
            (.literal "1" "Integer") (.some (.literal "2" "Integer"))))
          Complexity.one.toDictC) :=
  ⟨rfl, c7_if_branches_summed.1 unitOracle _ _ _ [] [] _ _ _ _ _ _ _ _
    rfl rfl rfl rfl rfl rfl⟩

set_option maxRecDepth 100000 in
/-- C8: a Block of three assignments with cost-1 value expressions
folds `add` from the identity triple and stays at `(1, 1, 1)` — the
unit costs are absorbed, not accumulated to 3 — for every oracle. -/
theorem c8_three_unit_assignments_absorbed :
    ∀ oracle : String → CostDict,
      (analyze oracle threeAssigns [] []).map Prod.fst =
        some ⟨"1", "1", "1"⟩ :=
  fun _ => rfl

/-- C9: tokenizing then parsing `p() begin x <- 1 end` succeeds with a
Program holding exactly one ProcedureDef named `p` with no parameters,
whose body is a Block with exactly one Assignment whose value is the
Literal `"1"` (the assignment target is the `str(...)`-flattened
lvalue `Variable(name='x')`). -/
theorem c9_minimal_procedure_round_trip :
    parseSource "p() begin x <- 1 end" =
      .ok (.program "Program" .nil
        (.cons (.procedureDef "p" .nil
          (.block (.cons
            (.assignment "Variable(name=\x27x\x27)" (.literal "1" "Integer"))
            .nil))) .nil)
        (.block .nil)) :=
  rfl

set_option maxRecDepth 100000 in
/-- C10: when the oracle path of a dependent ForLoop fails (no API
key), the error-sentinel triple is written through to the cache keyed
by the loop's signature exactly like a valid result: after analyzing
`depOuter` (whose inner loop is dependent — its bound is the variable
`loop_var`, which is a context key) the cache maps the inner loop's
signature to the error dictionary; and any later analysis of a
structurally identical loop against a cache containing that entry
returns the stored error triple with the cache unchanged, for EVERY
oracle and context — the oracle is never re-invoked. -/
theorem c10_error_triple_cached_and_reused :
    (analyze noKeyOracle depOuter [] []).bind
      (fun p => kbGet p.2 (signatureOf depInner)) = some errDict ∧
    (∀ (oracle : String → CostDict) (ctx : Ctx) (kb : KBMap),
      kbGet kb (signatureOf depInner) = some errDict →
      analyze oracle depInner ctx kb = some (errTriple, kb)) := by
  refine ⟨rfl, ?_⟩
  intro oracle ctx kb h
  simp only [analyze.eq_def, h]
  rfl

set_option maxRecDepth 100000 in
/-- C10 witness: the cached-reuse statement instantiated at a cache
holding exactly the inner loop's error entry and an oracle different
from the failing one. -/
theorem c10_error_triple_cached_and_reused_witness :
    kbGet [(signatureOf depInner, errDict)] (signatureOf depInner) =
      some errDict ∧
    analyze unitOracle depInner [] [(signatureOf depInner, errDict)] =
      some (errTriple, [(signatureOf depInner, errDict)]) :=
  ⟨rfl, c10_error_triple_cached_and_reused.2 unitOracle [] _ rfl⟩
